import Mathlib

/-!
Shallow embedding of the syndication server's extension architecture:
the storage layer (`src/database/database.go`), the capability context
layer (`src/plugins/context.go`) and the plugin loader / endpoint
registry (`src/unnamed/part_000`, package `plugins`).

Go pointers that may be nil are modelled as `Option`; the gorm database
handle is modelled as an explicit relational state `DBState` threaded
through the operations; Go's `(value, error)` multiple returns become
pairs with an `Option DBError` component.
-/

namespace Syndication

/-- Modelled from the spec: a read/unread classification applied to a
content entry (the `models.Marker` type of the out-of-scope models
package). `database.go` uses the values `models.None` (invalid-marker
sentinel), `models.Any` (select-all sentinel), `models.Unread` and
`models.Read`. -/
inductive Marker where
  | none
  | any
  | unread
  | read
deriving DecidableEq

/-- Modelled from the spec: the authenticated identity (`models.User`).
Only the fields `database.go` reads are represented: the SQL primary key
`ID`, the public `APIID`, the username, and the API id of the per-user
system category (`UncategorizedCategoryAPIID`, read by `DeleteCategory`). -/
structure User where
  id : Nat
  apiID : String
  username : String
  uncategorizedCategoryAPIID : String
deriving DecidableEq

/-- Modelled from the spec: a category row (`models.Category`), with its
primary key, public API id, owner foreign key and name. -/
structure Category where
  id : Nat
  apiID : String
  userID : Nat
  name : String
deriving DecidableEq

/-- Modelled from the spec: a feed row (`models.Feed`), with its primary
key, public API id, owner and category foreign keys, and title. -/
structure Feed where
  id : Nat
  apiID : String
  userID : Nat
  categoryID : Nat
  title : String
deriving DecidableEq

/-- Modelled from the spec: an entry row (`models.Entry`): primary key,
public API id, owner and feed foreign keys, title, marker, saved flag and
the `published` / `created_at` timestamps the list queries order by. The
embedded `Feed` sub-struct that gorm lazily loads is not represented. -/
structure Entry where
  id : Nat
  apiID : String
  userID : Nat
  feedID : Nat
  title : String
  mark : Marker
  saved : Bool
  published : Int
  createdAt : Int
deriving DecidableEq

/-- Modelled from the spec: a tag row (`models.Tag`). -/
structure Tag where
  id : Nat
  apiID : String
  userID : Nat
  name : String
deriving DecidableEq

/-- Modelled from the spec: read/unread/saved/total counters
(`models.Stats`). -/
structure Stats where
  unread : Nat
  read : Nat
  saved : Nat
  total : Nat
deriving DecidableEq

/-- The relational state behind the gorm handle `DB.db`: one list per
table, plus the `entry_tags` join table as (entry id, tag id) rows. -/
structure DBState where
  users : List User
  categories : List Category
  feeds : List Feed
  entries : List Entry
  tags : List Tag
  entryTags : List (Nat × Nat)
deriving DecidableEq

/-- Go zero value of `models.Entry`, returned alongside an error. -/
def Entry.zero : Entry :=
  { id := 0, apiID := "", userID := 0, feedID := 0, title := ""
    mark := Marker.none, saved := false, published := 0, createdAt := 0 }

/-- Go zero value of `models.Feed`. -/
def Feed.zero : Feed :=
  { id := 0, apiID := "", userID := 0, categoryID := 0, title := "" }

/-- Go zero value of `models.Category`. -/
def Category.zero : Category :=
  { id := 0, apiID := "", userID := 0, name := "" }

/-- Go zero value of `models.Tag`. -/
def Tag.zero : Tag :=
  { id := 0, apiID := "", userID := 0, name := "" }

/-- Go zero value of `models.Stats`. -/
def Stats.zero : Stats :=
  { unread := 0, read := 0, saved := 0, total := 0 }

/-- The fixed error taxonomy of `database.go`: the five concrete types
`Conflict`, `NotFound`, `BadRequest`, `Unauthorized`, `InternalError`
implementing the `DBError` interface, each carrying a message. -/
inductive DBError where
  | Conflict (msg : String)
  | NotFound (msg : String)
  | BadRequest (msg : String)
  | Unauthorized (msg : String)
  | InternalError (msg : String)
deriving DecidableEq

/-- The `Code()` method of each `DBError` variant (`database.go`,
lines 893-956). -/
def DBError.Code : DBError → Int
  | .Conflict _ => 409
  | .NotFound _ => 404
  | .BadRequest _ => 400
  | .Unauthorized _ => 401
  | .InternalError _ => 500

/-- The `Error()` method of each `DBError` variant: returns the stored
message. -/
def DBError.msg : DBError → String
  | .Conflict m => m
  | .NotFound m => m
  | .BadRequest m => m
  | .Unauthorized m => m
  | .InternalError m => m

/-- The `String()` method of each `DBError` variant. -/
def DBError.kindName : DBError → String
  | .Conflict _ => "Conflict"
  | .NotFound _ => "Not Found"
  | .BadRequest _ => "Bad Request"
  | .Unauthorized _ => "Unauthorized"
  | .InternalError _ => "Internal Error"

/-- gorm `db.Model(user).Where("api_id = ?", id).Related(&feed)`: the
first feed row owned by `user` with the given API id. -/
def DBState.findUserFeed (st : DBState) (user : User) (apiID : String) : Option Feed :=
  st.feeds.find? (fun f => f.userID == user.id && f.apiID == apiID)

/-- gorm `db.Model(user).Where("api_id = ?", id).Related(&ctg)`. -/
def DBState.findUserCategory (st : DBState) (user : User) (apiID : String) : Option Category :=
  st.categories.find? (fun c => c.userID == user.id && c.apiID == apiID)

/-- gorm `db.Model(user).Where("api_id = ?", id).Related(&tag)`. -/
def DBState.findUserTag (st : DBState) (user : User) (apiID : String) : Option Tag :=
  st.tags.find? (fun t => t.userID == user.id && t.apiID == apiID)

/-- gorm `db.Model(user).Where("api_id = ?", id).Related(&entry)`. -/
def DBState.findUserEntry (st : DBState) (user : User) (apiID : String) : Option Entry :=
  st.entries.find? (fun e => e.userID == user.id && e.apiID == apiID)

/-- Insert an entry into a list sorted by `le` (used to model the SQL
`ORDER BY` clauses). -/
def insertEntry (le : Entry → Entry → Bool) (e : Entry) : List Entry → List Entry
  | [] => [e]
  | x :: xs => if le e x then e :: x :: xs else x :: insertEntry le e xs

/-- Insertion sort on entries by `le`. -/
def sortEntries (le : Entry → Entry → Bool) : List Entry → List Entry
  | [] => []
  | x :: xs => insertEntry le x (sortEntries le xs)

/-- SQL `ORDER BY published DESC` (when `newestFirst`) or `ASC`. -/
def orderByPublished (newestFirst : Bool) : List Entry → List Entry :=
  sortEntries (fun a b => if newestFirst then b.published ≤ a.published else a.published ≤ b.published)

/-- SQL `ORDER BY created_at DESC` (when `newestFirst`) or `ASC`. -/
def orderByCreatedAt (newestFirst : Bool) : List Entry → List Entry :=
  sortEntries (fun a b => if newestFirst then b.createdAt ≤ a.createdAt else a.createdAt ≤ b.createdAt)

namespace DB

/-- `DB.Entry` (`database.go`): look up an entry with `id` owned by
`user`; on a miss return the zero entry and `NotFound` with the source's
(sic) message "Feed does not exists". -/
def Entry (st : DBState) (id : String) (user : User) : Syndication.Entry × Option DBError :=
  match st.findUserEntry user id with
  | Option.none => (Syndication.Entry.zero, Option.some (DBError.NotFound "Feed does not exists"))
  | Option.some e => (e, Option.none)

/-- `DB.EntryWithAPIID` (`database.go`): an entry with the given API id
belonging to `user`. -/
def EntryWithAPIID (st : DBState) (apiID : String) (user : User) : Syndication.Entry × Option DBError :=
  match st.findUserEntry user apiID with
  | Option.none => (Syndication.Entry.zero, Option.some (DBError.NotFound "Entry does not exist"))
  | Option.some e => (e, Option.none)

/-- `DB.Entries` (`database.go`, lines 551-570): reject the `None`
marker with `BadRequest`; otherwise select the user's entries, restrict
to `mark = marker` unless the marker is `Any`, and order by `published`. -/
def Entries (st : DBState) (orderByNewest : Bool) (marker : Marker) (user : User) :
    List Syndication.Entry × Option DBError :=
  if marker = Marker.none then
    ([], Option.some (DBError.BadRequest "Request should include a valid marker"))
  else
    let query := st.entries.filter (fun e => e.userID == user.id)
    let query := if marker = Marker.any then query else query.filter (fun e => e.mark == marker)
    (orderByPublished orderByNewest query, Option.none)

/-- `DB.EntriesFromFeed` (`database.go`): `None` marker is rejected;
a missing feed yields `NotFound "Feed not found"`; otherwise the user's
entries of that feed, marker-filtered unless `Any`, ordered by
`published`. -/
def EntriesFromFeed (st : DBState) (feedID : String) (orderByNewest : Bool) (marker : Marker)
    (user : User) : List Syndication.Entry × Option DBError :=
  if marker = Marker.none then
    ([], Option.some (DBError.BadRequest "Request should include a valid marker"))
  else
    match st.findUserFeed user feedID with
    | Option.none => ([], Option.some (DBError.NotFound "Feed not found"))
    | Option.some feed =>
      let query := st.entries.filter (fun e => e.userID == user.id)
      let query := if marker = Marker.any then query else query.filter (fun e => e.mark == marker)
      (orderByPublished orderByNewest (query.filter (fun e => e.feedID == feed.id)), Option.none)

/-- `DB.EntriesFromCategory` (`database.go`): `None` marker rejected;
missing category yields `NotFound "Category not found"`; otherwise the
user's entries whose feed belongs to the category, marker-filtered
unless `Any`, ordered by `published`. -/
def EntriesFromCategory (st : DBState) (categoryID : String) (orderByNewest : Bool)
    (marker : Marker) (user : User) : List Syndication.Entry × Option DBError :=
  if marker = Marker.none then
    ([], Option.some (DBError.BadRequest "Request should include a valid marker"))
  else
    match st.findUserCategory user categoryID with
    | Option.none => ([], Option.some (DBError.NotFound "Category not found"))
    | Option.some category =>
      let feedIds := (st.feeds.filter (fun f => f.categoryID == category.id)).map (fun f => f.id)
      let query := st.entries.filter (fun e => e.userID == user.id)
      let query := if marker = Marker.any then query else query.filter (fun e => e.mark == marker)
      (orderByPublished orderByNewest (query.filter (fun e => feedIds.contains e.feedID)), Option.none)

/-- `DB.EntriesFromTag` (`database.go`): `None` marker rejected; missing
tag yields `NotFound "Tag not found"`; otherwise the entries associated
with the tag through `entry_tags`, marker-filtered unless `Any`, ordered
by `published`. Note the source parameter order `(tagID, marker,
orderByNewest, user)`. -/
def EntriesFromTag (st : DBState) (tagID : String) (marker : Marker) (orderByNewest : Bool)
    (user : User) : List Syndication.Entry × Option DBError :=
  if marker = Marker.none then
    ([], Option.some (DBError.BadRequest "Request should include a valid marker"))
  else
    match st.findUserTag user tagID with
    | Option.none => ([], Option.some (DBError.NotFound "Tag not found"))
    | Option.some tag =>
      let query := st.entries.filter (fun e => st.entryTags.contains (e.id, tag.id))
      let query := if marker = Marker.any then query else query.filter (fun e => e.mark == marker)
      (orderByPublished orderByNewest query, Option.none)

/-- `DB.TagPrimaryKey` (`database.go`): global (not user-scoped) lookup
of a tag's SQL primary key by API id. -/
def TagPrimaryKey (st : DBState) (apiID : String) : Nat × Option DBError :=
  match st.tags.find? (fun t => t.apiID == apiID) with
  | Option.none => (0, Option.some (DBError.NotFound "Tag does not exist"))
  | Option.some t => (t.id, Option.none)

/-- The key-resolution loop of `DB.EntriesFromMultipleTags`: resolve each
tag API id with `TagPrimaryKey`, failing on the first miss. -/
def resolveTagKeys (st : DBState) : List String → Except DBError (List Nat)
  | [] => Except.ok []
  | t :: ts =>
    match TagPrimaryKey st t with
    | (_, Option.some e) => Except.error e
    | (key, Option.none) =>
      match resolveTagKeys st ts with
      | Except.error e => Except.error e
      | Except.ok keys => Except.ok (key :: keys)

/-- `DB.EntriesFromMultipleTags` (`database.go`, lines 726-751). Unlike
the other entry listings it performs no `None` marker check and no user
scoping: it joins `entries` with `entry_tags` over the resolved tag
primary keys, filters by mark unless the marker is `Any`, orders by
`created_at`, and — because the query selects only `entries.title` —
scans rows holding only the title into zero-valued entries. -/
def EntriesFromMultipleTags (st : DBState) (tagIDs : List String) (orderByNewest : Bool)
    (marker : Marker) (user : User) : List Syndication.Entry × Option DBError :=
  match resolveTagKeys st tagIDs with
  | Except.error e => ([], Option.some e)
  | Except.ok keys =>
    let query := st.entries.filter (fun e => keys.any (fun k => st.entryTags.contains (e.id, k)))
    let query := if marker = Marker.any then query else query.filter (fun e => e.mark == marker)
    ((orderByCreatedAt orderByNewest query).map
      (fun e => { Syndication.Entry.zero with title := e.title }), Option.none)

/-- `DB.Feeds` (`database.go`): all feeds owned by the user. -/
def Feeds (st : DBState) (user : User) : List Syndication.Feed :=
  st.feeds.filter (fun f => f.userID == user.id)

/-- `DB.Category` (`database.go`): a category with `id` owned by `user`,
or the zero category and `NotFound`. -/
def Category (st : DBState) (id : String) (user : User) :
    Syndication.Category × Option DBError :=
  match st.findUserCategory user id with
  | Option.none => (Syndication.Category.zero, Option.some (DBError.NotFound "Category does not exist"))
  | Option.some c => (c, Option.none)

/-- `DB.FeedsFromCategory` (`database.go`): resolve the category via
`DB.Category` (propagating its error), then the feeds related to it. -/
def FeedsFromCategory (st : DBState) (categoryID : String) (user : User) :
    List Syndication.Feed × Option DBError :=
  match Category st categoryID user with
  | (_, Option.some e) => ([], Option.some e)
  | (ctg, Option.none) => (st.feeds.filter (fun f => f.categoryID == ctg.id), Option.none)

/-- `DB.Feed` (`database.go`): a feed with `id` owned by `user`, or the
zero feed and `NotFound`. The lazy load of `feed.Category` is not
represented. -/
def Feed (st : DBState) (id : String) (user : User) : Syndication.Feed × Option DBError :=
  match st.findUserFeed user id with
  | Option.none => (Syndication.Feed.zero, Option.some (DBError.NotFound "Feed does not exist"))
  | Option.some f => (f, Option.none)

/-- `DB.DeleteFeed` (`database.go`): delete the user's feed with `id`
(by primary key), or `NotFound`. -/
def DeleteFeed (st : DBState) (id : String) (user : User) : DBState × Option DBError :=
  match st.findUserFeed user id with
  | Option.none => (st, Option.some (DBError.NotFound "Feed does not exist"))
  | Option.some f =>
    ({ st with feeds := st.feeds.filter (fun x => x.id != f.id) }, Option.none)

/-- `DB.EditFeed` (`database.go`): find the user's feed with the incoming
feed's API id, overwrite its title, save; or `NotFound`. -/
def EditFeed (st : DBState) (feed : Syndication.Feed) (user : User) : DBState × Option DBError :=
  match st.findUserFeed user feed.apiID with
  | Option.none => (st, Option.some (DBError.NotFound "Feed does not exist"))
  | Option.some found =>
    ({ st with feeds := st.feeds.map (fun x => if x.id == found.id then { x with title := feed.title } else x) },
     Option.none)

/-- `DB.Categories` (`database.go`): all categories owned by the user. -/
def Categories (st : DBState) (user : User) : List Syndication.Category :=
  st.categories.filter (fun c => c.userID == user.id)

/-- `DB.EditCategory` (`database.go`): find the user's category with the
incoming category's API id, overwrite its name, save; or `NotFound`. -/
def EditCategory (st : DBState) (ctg : Syndication.Category) (user : User) :
    DBState × Option DBError :=
  match st.findUserCategory user ctg.apiID with
  | Option.none => (st, Option.some (DBError.NotFound "Category does not exist"))
  | Option.some found =>
    ({ st with categories := st.categories.map (fun x => if x.id == found.id then { x with name := ctg.name } else x) },
     Option.none)

/-- `DB.DeleteCategory` (`database.go`, lines 430-442): refuse to delete
the user's system (uncategorized) category with `BadRequest`; otherwise
delete the user's category with `id` by primary key, or `NotFound`. -/
def DeleteCategory (st : DBState) (id : String) (user : User) : DBState × Option DBError :=
  if id = user.uncategorizedCategoryAPIID then
    (st, Option.some (DBError.BadRequest "Cannot delete system categories"))
  else
    match st.findUserCategory user id with
    | Option.none => (st, Option.some (DBError.NotFound "Category does not exist"))
    | Option.some c =>
      ({ st with categories := st.categories.filter (fun x => x.id != c.id) }, Option.none)

/-- `DB.ChangeFeedCategory` (`database.go`): find the user's feed (else
`NotFound`), detach it from its previous category (the foreign key is
cleared — this mutation persists even if the new category lookup then
fails), then attach it to the user's category `ctgID` (else `NotFound`). -/
def ChangeFeedCategory (st : DBState) (feedID : String) (ctgID : String) (user : User) :
    DBState × Option DBError :=
  match st.findUserFeed user feedID with
  | Option.none => (st, Option.some (DBError.NotFound "Feed does not exist"))
  | Option.some feed =>
    let st1 : DBState :=
      { st with feeds := st.feeds.map (fun x => if x.id == feed.id then { x with categoryID := 0 } else x) }
    match st1.findUserCategory user ctgID with
    | Option.none => (st1, Option.some (DBError.NotFound "Category does not exist"))
    | Option.some newCtg =>
      ({ st1 with feeds := st1.feeds.map (fun x => if x.id == feed.id then { x with categoryID := newCtg.id } else x) },
       Option.none)

/-- `DB.Tags` (`database.go`): all tags owned by the user. -/
def Tags (st : DBState) (user : User) : List Syndication.Tag :=
  st.tags.filter (fun t => t.userID == user.id)

/-- `DB.Tag` (`database.go`): a tag with `id` owned by `user`, or the
zero tag and `NotFound`. -/
def Tag (st : DBState) (id : String) (user : User) : Syndication.Tag × Option DBError :=
  match st.findUserTag user id with
  | Option.none => (Syndication.Tag.zero, Option.some (DBError.NotFound "Tag does not exist"))
  | Option.some t => (t, Option.none)

/-- `DB.EditTag` (`database.go`): find the user's tag with the incoming
tag's API id, overwrite its name, save; or `NotFound`. -/
def EditTag (st : DBState) (tag : Syndication.Tag) (user : User) : DBState × Option DBError :=
  match st.findUserTag user tag.apiID with
  | Option.none => (st, Option.some (DBError.NotFound "Tag does not exist"))
  | Option.some found =>
    ({ st with tags := st.tags.map (fun x => if x.id == found.id then { x with name := tag.name } else x) },
     Option.none)

/-- `DB.DeleteTag` (`database.go`): delete the user's tag with `id` by
primary key, or `NotFound`. -/
def DeleteTag (st : DBState) (id : String) (user : User) : DBState × Option DBError :=
  match st.findUserTag user id with
  | Option.none => (st, Option.some (DBError.NotFound "Tag does not exist"))
  | Option.some t =>
    ({ st with tags := st.tags.filter (fun x => x.id != t.id) }, Option.none)

/-- The lookup loop of `DB.TagEntries`: resolve every entry API id with
`EntryWithAPIID`, failing on the first error. -/
def resolveEntries (st : DBState) (user : User) :
    List String → Except DBError (List Syndication.Entry)
  | [] => Except.ok []
  | id :: ids =>
    match EntryWithAPIID st id user with
    | (_, Option.some e) => Except.error e
    | (entry, Option.none) =>
      match resolveEntries st user ids with
      | Except.error e => Except.error e
      | Except.ok es => Except.ok (entry :: es)

/-- `DB.TagEntries` (`database.go`): an empty entry list is a no-op; the
tag must exist for the user (else `NotFound`); every entry id must
resolve (else that error, with no mutation); then each entry is appended
to the tag's association (`entry_tags` rows). -/
def TagEntries (st : DBState) (tagID : String) (entries : List String) (user : User) :
    DBState × Option DBError :=
  if entries = [] then (st, Option.none)
  else
    match st.findUserTag user tagID with
    | Option.none => (st, Option.some (DBError.NotFound "Tag does not exist"))
    | Option.some tag =>
      match resolveEntries st user entries with
      | Except.error e => (st, Option.some e)
      | Except.ok es =>
        ({ st with entryTags := st.entryTags ++ es.map (fun e => (e.id, tag.id)) }, Option.none)

/-- Count helper shared by the stats queries: the user's entries
restricted by a predicate. -/
def countEntries (st : DBState) (user : User) (pred : Syndication.Entry → Bool) : Nat :=
  ((st.entries.filter (fun e => e.userID == user.id)).filter pred).length

/-- `DB.CategoryStats` (`database.go`): `NotFound "Category not found"`
for a missing category; otherwise unread/read/saved/total counts over the
user's entries whose feed belongs to the category. -/
def CategoryStats (st : DBState) (id : String) (user : User) : Stats × Option DBError :=
  match st.findUserCategory user id with
  | Option.none => (Stats.zero, Option.some (DBError.NotFound "Category not found"))
  | Option.some ctg =>
    let feedIds := (st.feeds.filter (fun f => f.categoryID == ctg.id)).map (fun f => f.id)
    let inCtg : Syndication.Entry → Bool := fun e => feedIds.contains e.feedID
    ({ unread := countEntries st user (fun e => inCtg e && e.mark == Marker.unread)
       read := countEntries st user (fun e => inCtg e && e.mark == Marker.read)
       saved := countEntries st user (fun e => inCtg e && e.saved)
       total := countEntries st user inCtg }, Option.none)

/-- `DB.FeedStats` (`database.go`): `NotFound "Feed not found"` for a
missing feed; otherwise unread/read/saved/total counts over the user's
entries of that feed. -/
def FeedStats (st : DBState) (id : String) (user : User) : Stats × Option DBError :=
  match st.findUserFeed user id with
  | Option.none => (Stats.zero, Option.some (DBError.NotFound "Feed not found"))
  | Option.some feed =>
    let inFeed : Syndication.Entry → Bool := fun e => e.feedID == feed.id
    ({ unread := countEntries st user (fun e => inFeed e && e.mark == Marker.unread)
       read := countEntries st user (fun e => inFeed e && e.mark == Marker.read)
       saved := countEntries st user (fun e => inFeed e && e.saved)
       total := countEntries st user inFeed }, Option.none)

/-- `DB.Stats` (`database.go`): unread/read/saved/total counts over all
of the user's entries. -/
def Stats (st : DBState) (user : User) : Syndication.Stats :=
  { unread := countEntries st user (fun e => e.mark == Marker.unread)
    read := countEntries st user (fun e => e.mark == Marker.read)
    saved := countEntries st user (fun e => e.saved)
    total := countEntries st user (fun _ => true) }

/-- `DB.MarkFeed` (`database.go`): resolve the feed via `DB.Feed`
(propagating its error), then set the marker on all of the user's
entries of that feed. -/
def MarkFeed (st : DBState) (id : String) (marker : Marker) (user : User) :
    DBState × Option DBError :=
  match Feed st id user with
  | (_, Option.some e) => (st, Option.some e)
  | (feed, Option.none) =>
    let updated := st.entries.map
      (fun e => if e.userID == user.id && e.feedID == feed.id then { e with mark := marker } else e)
    ({ st with entries := updated }, Option.none)

/-- `DB.MarkCategory` (`database.go`): resolve the category via
`DB.Category` (propagating its error), then set the marker on all of the
user's entries whose feed belongs to that category. -/
def MarkCategory (st : DBState) (id : String) (marker : Marker) (user : User) :
    DBState × Option DBError :=
  match Category st id user with
  | (_, Option.some e) => (st, Option.some e)
  | (ctg, Option.none) =>
    let feedIds := (st.feeds.filter (fun f => f.categoryID == ctg.id)).map (fun f => f.id)
    let updated := st.entries.map
      (fun e => if e.userID == user.id && feedIds.contains e.feedID then { e with mark := marker } else e)
    ({ st with entries := updated }, Option.none)

/-- `DB.MarkEntry` (`database.go`): resolve the entry via `DB.Entry`
(propagating its error), then set its marker. -/
def MarkEntry (st : DBState) (id : String) (marker : Marker) (user : User) :
    DBState × Option DBError :=
  match Entry st id user with
  | (_, Option.some e) => (st, Option.some e)
  | (entry, Option.none) =>
    let updated := st.entries.map
      (fun e => if e.id == entry.id then { e with mark := marker } else e)
    ({ st with entries := updated }, Option.none)

end DB

/-- `UserCtx` (`src/plugins/context.go`): the user-scoped capability
context, binding an authenticated identity. The `db *database.DB` handle
is modelled by the explicit `DBState` argument each operation takes. -/
structure UserCtx where
  user : User

/-- `NewUserCtx` (`context.go`). -/
def NewUserCtx (user : User) : UserCtx := { user := user }

/-- `UserCtx.Entries` (`context.go`): forwards to `DB.Entries` with the
bound identity. -/
def UserCtx.Entries (c : UserCtx) (orderByNewest : Bool) (marker : Marker) (st : DBState) :
    List Syndication.Entry × Option DBError :=
  DB.Entries st orderByNewest marker c.user

/-- `UserCtx.EntriesFromCategory` (`context.go`). -/
def UserCtx.EntriesFromCategory (c : UserCtx) (categoryID : String) (orderByNewest : Bool)
    (marker : Marker) (st : DBState) : List Entry × Option DBError :=
  DB.EntriesFromCategory st categoryID orderByNewest marker c.user

/-- `UserCtx.EntriesFromFeed` (`context.go`). -/
def UserCtx.EntriesFromFeed (c : UserCtx) (feedID : String) (orderByNewest : Bool)
    (marker : Marker) (st : DBState) : List Entry × Option DBError :=
  DB.EntriesFromFeed st feedID orderByNewest marker c.user

/-- `UserCtx.EntriesFromTag` (`context.go`): note the source forwards as
`db.EntriesFromTag(tagID, marker, orderByNewest, c.user)`. -/
def UserCtx.EntriesFromTag (c : UserCtx) (tagID : String) (orderByNewest : Bool)
    (marker : Marker) (st : DBState) : List Entry × Option DBError :=
  DB.EntriesFromTag st tagID marker orderByNewest c.user

/-- `UserCtx.EntriesFromMultipleTags` (`context.go`). -/
def UserCtx.EntriesFromMultipleTags (c : UserCtx) (tagIDs : List String) (orderByNewest : Bool)
    (marker : Marker) (st : DBState) : List Entry × Option DBError :=
  DB.EntriesFromMultipleTags st tagIDs orderByNewest marker c.user

/-- `UserCtx.Entry` (`context.go`). -/
def UserCtx.Entry (c : UserCtx) (id : String) (st : DBState) : Syndication.Entry × Option DBError :=
  DB.Entry st id c.user

/-- `UserCtx.Feeds` (`context.go`). -/
def UserCtx.Feeds (c : UserCtx) (st : DBState) : List Syndication.Feed :=
  DB.Feeds st c.user

/-- `UserCtx.FeedsFromCategory` (`context.go`). -/
def UserCtx.FeedsFromCategory (c : UserCtx) (categoryID : String) (st : DBState) :
    List Syndication.Feed × Option DBError :=
  DB.FeedsFromCategory st categoryID c.user

/-- `UserCtx.Feed` (`context.go`). -/
def UserCtx.Feed (c : UserCtx) (id : String) (st : DBState) : Syndication.Feed × Option DBError :=
  DB.Feed st id c.user

/-- `UserCtx.DeleteFeed` (`context.go`). -/
def UserCtx.DeleteFeed (c : UserCtx) (id : String) (st : DBState) : DBState × Option DBError :=
  DB.DeleteFeed st id c.user

/-- `UserCtx.EditFeed` (`context.go`). -/
def UserCtx.EditFeed (c : UserCtx) (feed : Syndication.Feed) (st : DBState) : DBState × Option DBError :=
  DB.EditFeed st feed c.user

/-- `UserCtx.Categories` (`context.go`). -/
def UserCtx.Categories (c : UserCtx) (st : DBState) : List Syndication.Category :=
  DB.Categories st c.user

/-- `UserCtx.Category` (`context.go`). -/
def UserCtx.Category (c : UserCtx) (id : String) (st : DBState) : Syndication.Category × Option DBError :=
  DB.Category st id c.user

/-- `UserCtx.EditCategory` (`context.go`). -/
def UserCtx.EditCategory (c : UserCtx) (ctg : Syndication.Category) (st : DBState) : DBState × Option DBError :=
  DB.EditCategory st ctg c.user

/-- `UserCtx.DeleteCategory` (`context.go`, lines 99-101). Uniquely among
the context operations, its source signature takes a second parameter
`user *models.User` from the caller; the body forwards the BOUND
identity `c.user` and never reads that parameter. -/
def UserCtx.DeleteCategory (c : UserCtx) (id : String) (user : Option User) (st : DBState) :
    DBState × Option DBError :=
  DB.DeleteCategory st id c.user

/-- `UserCtx.ChangeFeedCategory` (`context.go`). -/
def UserCtx.ChangeFeedCategory (c : UserCtx) (feedID ctgID : String) (st : DBState) :
    DBState × Option DBError :=
  DB.ChangeFeedCategory st feedID ctgID c.user

/-- `UserCtx.Tags` (`context.go`). -/
def UserCtx.Tags (c : UserCtx) (st : DBState) : List Syndication.Tag :=
  DB.Tags st c.user

/-- `UserCtx.Tag` (`context.go`). -/
def UserCtx.Tag (c : UserCtx) (id : String) (st : DBState) : Syndication.Tag × Option DBError :=
  DB.Tag st id c.user

/-- `UserCtx.EditTag` (`context.go`). -/
def UserCtx.EditTag (c : UserCtx) (tag : Syndication.Tag) (st : DBState) : DBState × Option DBError :=
  DB.EditTag st tag c.user

/-- `UserCtx.DeleteTag` (`context.go`). -/
def UserCtx.DeleteTag (c : UserCtx) (id : String) (st : DBState) : DBState × Option DBError :=
  DB.DeleteTag st id c.user

/-- `UserCtx.TagEntries` (`context.go`). -/
def UserCtx.TagEntries (c : UserCtx) (tagID : String) (entries : List String) (st : DBState) :
    DBState × Option DBError :=
  DB.TagEntries st tagID entries c.user

/-- `UserCtx.CategoryStats` (`context.go`). -/
def UserCtx.CategoryStats (c : UserCtx) (id : String) (st : DBState) : Syndication.Stats × Option DBError :=
  DB.CategoryStats st id c.user

/-- `UserCtx.FeedStats` (`context.go`). -/
def UserCtx.FeedStats (c : UserCtx) (id : String) (st : DBState) : Syndication.Stats × Option DBError :=
  DB.FeedStats st id c.user

/-- `UserCtx.Stats` (`context.go`). -/
def UserCtx.Stats (c : UserCtx) (st : DBState) : Syndication.Stats :=
  DB.Stats st c.user

/-- `UserCtx.MarkFeed` (`context.go`). -/
def UserCtx.MarkFeed (c : UserCtx) (id : String) (marker : Marker) (st : DBState) :
    DBState × Option DBError :=
  DB.MarkFeed st id marker c.user

/-- `UserCtx.MarkCategory` (`context.go`). -/
def UserCtx.MarkCategory (c : UserCtx) (id : String) (marker : Marker) (st : DBState) :
    DBState × Option DBError :=
  DB.MarkCategory st id marker c.user

/-- `UserCtx.MarkEntry` (`context.go`). -/
def UserCtx.MarkEntry (c : UserCtx) (id : String) (marker : Marker) (st : DBState) :
    DBState × Option DBError :=
  DB.MarkEntry st id marker c.user

/-- `APICtx` (`context.go`): the request context, holding an optional
`*UserCtx` (nil for an anonymous request). -/
structure APICtx where
  User : Option UserCtx

/-- `APICtx.HasUser` (`context.go`, lines 39-41): `return c.User != nil`. -/
def APICtx.HasUser (c : APICtx) : Bool :=
  c.User.isSome

/-- Opaque stand-in for the external `http.ResponseWriter`. -/
inductive ResponseWriter where
  | mk

/-- Opaque stand-in for the external `*http.Request`. -/
inductive HTTPRequest where
  | mk

/-- `RequestHandler` (`src/unnamed/part_000`): the function type
`func(APICtx, http.ResponseWriter, *http.Request)` for endpoint
handlers. -/
def RequestHandler : Type := APICtx → ResponseWriter → HTTPRequest → Unit

/-- `Endpoint` (`part_000`): a routable capability declared by an API
plugin. The nilable Go `Handler` field is an `Option`. -/
structure Endpoint where
  needsUser : Bool
  path : String
  method : String
  group : String
  handler : Option RequestHandler

/-- `APIPlugin` (`part_000`): one extension's name, its ordered endpoint
sequence, and its module path. -/
structure APIPlugin where
  name : String
  endpoints : List Endpoint
  path : String

/-- `APIPluginError` (`part_000`): the error type returned by
`RegisterEndpoint`, carrying `ErrorMsg`. -/
structure APIPluginError where
  ErrorMsg : String
deriving DecidableEq

/-- The `Error()` method of `APIPluginError`. -/
def APIPluginError.Error (e : APIPluginError) : String := e.ErrorMsg

/-- `NewAPIPlugin` (`part_000`): a fresh plugin with the given name and
zero-valued endpoints and path. -/
def NewAPIPlugin (name : String) : APIPlugin :=
  { name := name, endpoints := [], path := "" }

/-- `APIPlugin.Endpoints` (`part_000`): the endpoint sequence. -/
def APIPlugin.Endpoints (p : APIPlugin) : List Endpoint := p.endpoints

/-- `APIPlugin.checkConflictingPaths` (`part_000`, lines 176-185): linear
scan for an existing endpoint with the same path and method. -/
def APIPlugin.checkConflictingPaths (p : APIPlugin) (incoming : Endpoint) : Bool :=
  p.endpoints.any (fun e => e.path == incoming.path && e.method == incoming.method)

/-- `APIPlugin.RegisterEndpoint` (`part_000`, lines 154-174). The Go
method mutates its pointer receiver and returns an error; modelled as
returning the updated plugin together with the optional error. -/
def APIPlugin.RegisterEndpoint (p : APIPlugin) (endpnt : Endpoint) :
    APIPlugin × Option APIPluginError :=
  if endpnt.handler.isNone then
    (p, Option.some { ErrorMsg := "A handler is required." })
  else if endpnt.method = "" then
    (p, Option.some { ErrorMsg := "A method is required." })
  else if endpnt.path = "" then
    (p, Option.some { ErrorMsg := "A path is required." })
  else if p.checkConflictingPaths endpnt then
    (p, Option.some { ErrorMsg := "The path " ++ endpnt.path ++ "for method " ++ endpnt.method ++ " already exists." })
  else
    ({ p with endpoints := p.endpoints ++ [endpnt] }, Option.none)

/-- A sequence of `RegisterEndpoint` calls, threading the plugin and
collecting every call's result in order. -/
def registerAll (p : APIPlugin) : List Endpoint → APIPlugin × List (Option APIPluginError)
  | [] => (p, [])
  | e :: es =>
    let r := p.RegisterEndpoint e
    let rest := registerAll r.1 es
    (rest.1, r.2 :: rest.2)

/-- `Plugin` (`part_000`): the plugin capability interface. The loader's
type switch recognizes the `APIPlugin` variant; anything else falls to
the default (unrecognized) case. -/
inductive Plugin where
  | api (p : APIPlugin)
  | unrecognized (path name : String)

/-- The `Path()` of a `Plugin`. -/
def Plugin.Path : Plugin → String
  | .api p => p.path
  | .unrecognized path _ => path

/-- The `Name()` of a `Plugin`. -/
def Plugin.Name : Plugin → String
  | .api p => p.name
  | .unrecognized _ name => name

/-- The result of resolving the symbol named "Initialize" inside an
opened module (`plgn.Lookup` followed by the `InitFunc` type assertion).
A correctly typed zero-argument init function is called exactly once by
the loader, so it is represented by its result pair `(Plugin, error)`;
`wrongType` is a symbol that fails the `InitFunc` type assertion. -/
inductive LoaderSymbol where
  | initFn (ret : Plugin) (err : Option String)
  | wrongType

/-- An opened module (`*plugin.Plugin`): the outcome of looking up the
"Initialize" symbol, `Option.none` when the symbol is missing. -/
structure OpenedModule where
  initSymbol : Option LoaderSymbol

/-- One module descriptor handed to the loader: its configured path and
the outcome of `plugin.Open` (`Option.none` when opening fails). -/
structure ModuleDescriptor where
  path : String
  opened : Option OpenedModule

/-- `Plugins` (`part_000`): the host registry of successfully loaded API
plugins. -/
structure Plugins where
  apiPlugins : List APIPlugin

/-- `Plugins.loadPlugins` (`part_000`, lines 195-229): iterate the
descriptors; at each stage (open, symbol lookup, type assertion, init
call, type switch) a failure logs and skips to the next descriptor; a
returned `APIPlugin` is appended to the registry. -/
def Plugins.loadPlugins (s : Plugins) : List ModuleDescriptor → Plugins
  | [] => s
  | d :: rest =>
    match d.opened with
    | Option.none => Plugins.loadPlugins s rest
    | Option.some m =>
      match m.initSymbol with
      | Option.none => Plugins.loadPlugins s rest
      | Option.some LoaderSymbol.wrongType => Plugins.loadPlugins s rest
      | Option.some (LoaderSymbol.initFn ret err) =>
        match err with
        | Option.some _ => Plugins.loadPlugins s rest
        | Option.none =>
          match ret with
          | Plugin.api p => Plugins.loadPlugins { s with apiPlugins := s.apiPlugins ++ [p] } rest
          | Plugin.unrecognized _ _ => Plugins.loadPlugins s rest

/-- `NewPlugins` (`part_000`): build the registry by loading every
configured descriptor into an empty `Plugins`. -/
def NewPlugins (paths : List ModuleDescriptor) : Plugins :=
  Plugins.loadPlugins { apiPlugins := [] } paths

/-- `Plugins.APIPlugins` (`part_000`, lines 231-233): read view of the
registry. -/
def Plugins.APIPlugins (s : Plugins) : List APIPlugin := s.apiPlugins

/-- One invocation of an operation exposed by `UserCtx`, with the
arguments of its source signature (`context.go`). Only `deleteCategory`
carries a caller-supplied identity argument, mirroring the source
signature `DeleteCategory(id string, user *models.User)`. -/
inductive UserOp where
  | entries (orderByNewest : Bool) (marker : Marker)
  | entriesFromCategory (categoryID : String) (orderByNewest : Bool) (marker : Marker)
  | entriesFromFeed (feedID : String) (orderByNewest : Bool) (marker : Marker)
  | entriesFromTag (tagID : String) (orderByNewest : Bool) (marker : Marker)
  | entriesFromMultipleTags (tagIDs : List String) (orderByNewest : Bool) (marker : Marker)
  | entry (id : String)
  | feeds
  | feedsFromCategory (categoryID : String)
  | feed (id : String)
  | deleteFeed (id : String)
  | editFeed (f : Feed)
  | categories
  | category (id : String)
  | editCategory (c : Category)
  | deleteCategory (id : String) (user : Option User)
  | changeFeedCategory (feedID ctgID : String)
  | tags
  | tag (id : String)
  | editTag (t : Tag)
  | deleteTag (id : String)
  | tagEntries (tagID : String) (entries : List String)
  | categoryStats (id : String)
  | feedStats (id : String)
  | stats
  | markFeed (id : String) (marker : Marker)
  | markCategory (id : String) (marker : Marker)
  | markEntry (id : String) (marker : Marker)

/-- The caller-supplied identity argument of an exposed operation, when
its source signature has one: `Option.some u` exactly for
`deleteCategory`, whose Go signature takes `user *models.User`. -/
def UserOp.callerIdentityArg : UserOp → Option (Option User)
  | .deleteCategory _ u => Option.some u
  | _ => Option.none

/-- Replace the caller-supplied identity argument of an operation (a
no-op for every operation whose signature has none). -/
def UserOp.setIdentityArg (op : UserOp) (u : Option User) : UserOp :=
  match op with
  | .deleteCategory id _ => .deleteCategory id u
  | o => o

/-- The result of one exposed operation: the (possibly updated) database
state together with the operation's return values. -/
inductive OpResult where
  | entriesR (es : List Entry) (err : Option DBError)
  | entryR (e : Entry) (err : Option DBError)
  | feedsR (fs : List Feed)
  | feedsErrR (fs : List Feed) (err : Option DBError)
  | feedR (f : Feed) (err : Option DBError)
  | categoriesR (cs : List Category)
  | categoryR (c : Category) (err : Option DBError)
  | tagsR (ts : List Tag)
  | tagR (t : Tag) (err : Option DBError)
  | statsR (s : Stats)
  | statsErrR (s : Stats) (err : Option DBError)
  | errR (err : Option DBError)

/-- Run one exposed operation through the `UserCtx` context layer
(`context.go`): each case forwards to the corresponding `UserCtx`
method. -/
def runUserOp (c : UserCtx) (op : UserOp) (st : DBState) : DBState × OpResult :=
  match op with
  | .entries ord m => let r := c.Entries ord m st; (st, .entriesR r.1 r.2)
  | .entriesFromCategory cid ord m => let r := c.EntriesFromCategory cid ord m st; (st, .entriesR r.1 r.2)
  | .entriesFromFeed fid ord m => let r := c.EntriesFromFeed fid ord m st; (st, .entriesR r.1 r.2)
  | .entriesFromTag tid ord m => let r := c.EntriesFromTag tid ord m st; (st, .entriesR r.1 r.2)
  | .entriesFromMultipleTags tids ord m => let r := c.EntriesFromMultipleTags tids ord m st; (st, .entriesR r.1 r.2)
  | .entry id => let r := c.Entry id st; (st, .entryR r.1 r.2)
  | .feeds => (st, .feedsR (c.Feeds st))
  | .feedsFromCategory cid => let r := c.FeedsFromCategory cid st; (st, .feedsErrR r.1 r.2)
  | .feed id => let r := c.Feed id st; (st, .feedR r.1 r.2)
  | .deleteFeed id => let r := c.DeleteFeed id st; (r.1, .errR r.2)
  | .editFeed f => let r := c.EditFeed f st; (r.1, .errR r.2)
  | .categories => (st, .categoriesR (c.Categories st))
  | .category id => let r := c.Category id st; (st, .categoryR r.1 r.2)
  | .editCategory ctg => let r := c.EditCategory ctg st; (r.1, .errR r.2)
  | .deleteCategory id u => let r := c.DeleteCategory id u st; (r.1, .errR r.2)
  | .changeFeedCategory fid cid => let r := c.ChangeFeedCategory fid cid st; (r.1, .errR r.2)
  | .tags => (st, .tagsR (c.Tags st))
  | .tag id => let r := c.Tag id st; (st, .tagR r.1 r.2)
  | .editTag t => let r := c.EditTag t st; (r.1, .errR r.2)
  | .deleteTag id => let r := c.DeleteTag id st; (r.1, .errR r.2)
  | .tagEntries tid es => let r := c.TagEntries tid es st; (r.1, .errR r.2)
  | .categoryStats id => let r := c.CategoryStats id st; (st, .statsErrR r.1 r.2)
  | .feedStats id => let r := c.FeedStats id st; (st, .statsErrR r.1 r.2)
  | .stats => (st, .statsR (c.Stats st))
  | .markFeed id m => let r := c.MarkFeed id m st; (r.1, .errR r.2)
  | .markCategory id m => let r := c.MarkCategory id m st; (r.1, .errR r.2)
  | .markEntry id m => let r := c.MarkEntry id m st; (r.1, .errR r.2)

/-- Run one operation directly against the storage layer (`database.go`)
with an explicitly given identity `ident`. The op's own embedded
identity argument (present only on `deleteCategory`) is never consulted:
storage receives exactly `ident`. -/
def dbRunOp (st : DBState) (op : UserOp) (ident : User) : DBState × OpResult :=
  match op with
  | .entries ord m => let r := DB.Entries st ord m ident; (st, .entriesR r.1 r.2)
  | .entriesFromCategory cid ord m => let r := DB.EntriesFromCategory st cid ord m ident; (st, .entriesR r.1 r.2)
  | .entriesFromFeed fid ord m => let r := DB.EntriesFromFeed st fid ord m ident; (st, .entriesR r.1 r.2)
  | .entriesFromTag tid ord m => let r := DB.EntriesFromTag st tid m ord ident; (st, .entriesR r.1 r.2)
  | .entriesFromMultipleTags tids ord m => let r := DB.EntriesFromMultipleTags st tids ord m ident; (st, .entriesR r.1 r.2)
  | .entry id => let r := DB.Entry st id ident; (st, .entryR r.1 r.2)
  | .feeds => (st, .feedsR (DB.Feeds st ident))
  | .feedsFromCategory cid => let r := DB.FeedsFromCategory st cid ident; (st, .feedsErrR r.1 r.2)
  | .feed id => let r := DB.Feed st id ident; (st, .feedR r.1 r.2)
  | .deleteFeed id => let r := DB.DeleteFeed st id ident; (r.1, .errR r.2)
  | .editFeed f => let r := DB.EditFeed st f ident; (r.1, .errR r.2)
  | .categories => (st, .categoriesR (DB.Categories st ident))
  | .category id => let r := DB.Category st id ident; (st, .categoryR r.1 r.2)
  | .editCategory ctg => let r := DB.EditCategory st ctg ident; (r.1, .errR r.2)
  | .deleteCategory id _ => let r := DB.DeleteCategory st id ident; (r.1, .errR r.2)
  | .changeFeedCategory fid cid => let r := DB.ChangeFeedCategory st fid cid ident; (r.1, .errR r.2)
  | .tags => (st, .tagsR (DB.Tags st ident))
  | .tag id => let r := DB.Tag st id ident; (st, .tagR r.1 r.2)
  | .editTag t => let r := DB.EditTag st t ident; (r.1, .errR r.2)
  | .deleteTag id => let r := DB.DeleteTag st id ident; (r.1, .errR r.2)
  | .tagEntries tid es => let r := DB.TagEntries st tid es ident; (r.1, .errR r.2)
  | .categoryStats id => let r := DB.CategoryStats st id ident; (st, .statsErrR r.1 r.2)
  | .feedStats id => let r := DB.FeedStats st id ident; (st, .statsErrR r.1 r.2)
  | .stats => (st, .statsR (DB.Stats st ident))
  | .markFeed id m => let r := DB.MarkFeed st id m ident; (r.1, .errR r.2)
  | .markCategory id m => let r := DB.MarkCategory st id m ident; (r.1, .errR r.2)
  | .markEntry id m => let r := DB.MarkEntry st id m ident; (r.1, .errR r.2)

/-- The kinds of `RegisterEndpoint` validation failure named by the
spec: `MissingHandler`, `MissingMethod`, `MissingPath`,
`ConflictingRoute`. -/
inductive ValidationKind where
  | missingHandler
  | missingMethod
  | missingPath
  | conflictingRoute
deriving DecidableEq

/-- Modelled from the spec (section 4.2): the first violated check in
the fixed validation order handler-present, method-non-empty,
path-non-empty, exact (Method, Path) conflict; `Option.none` when no
check is violated. -/
def specFirstViolation (p : APIPlugin) (e : Endpoint) : Option ValidationKind :=
  if e.handler.isNone then Option.some ValidationKind.missingHandler
  else if e.method = "" then Option.some ValidationKind.missingMethod
  else if e.path = "" then Option.some ValidationKind.missingPath
  else if p.endpoints.any (fun x => decide (x.method = e.method) && decide (x.path = e.path)) then
    Option.some ValidationKind.conflictingRoute
  else Option.none

/-- The error value `RegisterEndpoint` produces for each validation
kind (messages from `part_000`). -/
def validationError (e : Endpoint) : ValidationKind → APIPluginError
  | .missingHandler => { ErrorMsg := "A handler is required." }
  | .missingMethod => { ErrorMsg := "A method is required." }
  | .missingPath => { ErrorMsg := "A path is required." }
  | .conflictingRoute =>
    { ErrorMsg := "The path " ++ e.path ++ "for method " ++ e.method ++ " already exists." }

/-- Does the list `t` occur as a prefix of `s`? -/
def startsWithL : List Char → List Char → Bool
  | [], _ => true
  | _ :: _, [] => false
  | a :: as, b :: bs => a == b && startsWithL as bs

/-- Does the list `t` occur as a contiguous sublist of `s`? -/
def occursIn (t : List Char) : List Char → Bool
  | [] => startsWithL t []
  | c :: s => startsWithL t (c :: s) || occursIn t s

/-- The string `s` contains `t` as a contiguous substring. -/
def strContains (s t : String) : Prop :=
  occursIn t.data s.data = true

instance (s t : String) : Decidable (strContains s t) := by
  unfold strContains
  infer_instance

/-- The payload a descriptor contributes to the registry: `Option.some`
exactly when every loader stage (open, symbol lookup, type assertion,
init call, type switch) succeeds, mirroring the stages of
`Plugins.loadPlugins`. -/
def modulePayload (d : ModuleDescriptor) : Option APIPlugin :=
  match d.opened with
  | Option.none => Option.none
  | Option.some m =>
    match m.initSymbol with
    | Option.none => Option.none
    | Option.some LoaderSymbol.wrongType => Option.none
    | Option.some (LoaderSymbol.initFn ret err) =>
      match err with
      | Option.some _ => Option.none
      | Option.none =>
        match ret with
        | Plugin.api p => Option.some p
        | Plugin.unrecognized _ _ => Option.none

/-- A descriptor that survives every loader stage. -/
def moduleSucceeds (d : ModuleDescriptor) : Bool :=
  (modulePayload d).isSome

/-- Sample identity used by concrete instances. -/
def sampleUser : User :=
  { id := 1, apiID := "u1", username := "alice", uncategorizedCategoryAPIID := "sys1" }

/-- A context bound to the sample identity. -/
def sampleCtx : UserCtx := { user := sampleUser }

/-- A database state holding only the sample user. -/
def emptyState : DBState :=
  { users := [sampleUser], categories := [], feeds := [], entries := [], tags := []
    entryTags := [] }

section Lemmas

/-- String append acts as list append on the underlying character data. -/
theorem data_append (a b : String) : (a ++ b).data = a.data ++ b.data := by
  cases a
  cases b
  rfl

theorem startsWithL_append (t b : List Char) : startsWithL t (t ++ b) = true := by
  induction t with
  | nil => rfl
  | cons c cs ih => simp [startsWithL, ih]

theorem occursIn_of_startsWithL {t s : List Char} (h : startsWithL t s = true) :
    occursIn t s = true := by
  cases s with
  | nil => simpa [occursIn] using h
  | cons c cs => simp [occursIn, h]

theorem occursIn_append_left (a : List Char) {t s : List Char} (h : occursIn t s = true) :
    occursIn t (a ++ s) = true := by
  induction a with
  | nil => simpa using h
  | cons c cs ih =>
    have step : occursIn t (c :: (cs ++ s)) = true := by
      simp [occursIn, ih]
    simpa using step

/-- Any string of the form `a ++ t ++ b` contains `t`. -/
theorem strContains_of_parts (a t b : String) : strContains (a ++ t ++ b) t := by
  unfold strContains
  have h : (a ++ t ++ b).data = a.data ++ (t.data ++ b.data) := by
    simp [data_append]
  rw [h]
  exact occursIn_append_left a.data
    (occursIn_of_startsWithL (startsWithL_append t.data b.data))

end Lemmas

/-- C1 (claim as stated is refuted here): the claim asserts that no
exposed `UserScopedContext` operation accepts an identity parameter from
the caller; but `UserCtx.DeleteCategory` (`context.go`, lines 99-101)
does accept one — `callerIdentityArg` of a concrete `deleteCategory`
invocation is not `none`. -/
theorem C1_counterexample :
    UserOp.callerIdentityArg (UserOp.deleteCategory "ctg1" (Option.some sampleUser))
      ≠ Option.none := by
  simp [UserOp.callerIdentityArg]

/-- C1 (amended): every operation exposed by `UserCtx` forwards to the
storage layer with the identity bound at construction (`runUserOp`
coincides with running the operation directly against `database.go` with
identity `c.user`), and the one caller-supplied identity argument that
does exist (on `DeleteCategory`) is ignored: replacing it never changes
the result. -/
theorem C1_amended (c : UserCtx) (op : UserOp) (st : DBState) :
    runUserOp c op st = dbRunOp st op c.user
    ∧ ∀ u', runUserOp c (op.setIdentityArg u') st = runUserOp c op st := by
  cases op <;> exact ⟨rfl, fun _ => rfl⟩

/-- C7 (confirmed): `HasUser()` is false for a request context built
without an identity and true for one built with a non-null identity. -/
theorem C7_hasUser (u : UserCtx) :
    APICtx.HasUser { User := Option.none } = false
    ∧ APICtx.HasUser { User := Option.some u } = true :=
  ⟨rfl, rfl⟩

/-- C8 (confirmed): every instance of each kind in the storage layer's
fixed error taxonomy carries its numeric code: Conflict 409, NotFound
404, BadRequest 400, Unauthorized 401, InternalError 500. -/
theorem C8_error_codes (m : String) :
    DBError.Code (DBError.Conflict m) = 409
    ∧ DBError.Code (DBError.NotFound m) = 404
    ∧ DBError.Code (DBError.BadRequest m) = 400
    ∧ DBError.Code (DBError.Unauthorized m) = 401
    ∧ DBError.Code (DBError.InternalError m) = 500 :=
  ⟨rfl, rfl, rfl, rfl, rfl⟩

/-- C9 (confirmed): `UserCtx.DeleteCategory` is independent of its
caller-supplied `user` argument (including nil): the operation forwards
the bound identity and never reads the parameter. -/
theorem C9_deleteCategory_ignores_user (c : UserCtx) (id : String) (u1 u2 : Option User)
    (st : DBState) : c.DeleteCategory id u1 st = c.DeleteCategory id u2 st := rfl

/-- C10 (claim as stated is refuted here): the claim covers "the other
entry-listing operations" as well, but `EntriesFromMultipleTags`
performs no `None`-marker check: on a concrete context and state it
returns no error at all, instead of the claimed `BadRequest`. -/
theorem C10_counterexample :
    sampleCtx.EntriesFromMultipleTags [] true Marker.none emptyState = ([], Option.none)
    ∧ (sampleCtx.EntriesFromMultipleTags [] true Marker.none emptyState).2
        ≠ Option.some (DBError.BadRequest "Request should include a valid marker") := by
  exact ⟨rfl, by decide⟩

/-- C10 (amended): `Entries`, `EntriesFromCategory`, `EntriesFromFeed`
and `EntriesFromTag` each reject the `None` marker with `BadRequest`
"Request should include a valid marker" and an empty entry list
(`EntriesFromMultipleTags` performs no such check), while the `Any`
marker selects the user's entries of every mark. -/
theorem C10_amended (c : UserCtx) (st : DBState) (ord : Bool) (cid fid tid : String) :
    c.Entries ord Marker.none st
      = ([], Option.some (DBError.BadRequest "Request should include a valid marker"))
    ∧ c.EntriesFromCategory cid ord Marker.none st
      = ([], Option.some (DBError.BadRequest "Request should include a valid marker"))
    ∧ c.EntriesFromFeed fid ord Marker.none st
      = ([], Option.some (DBError.BadRequest "Request should include a valid marker"))
    ∧ c.EntriesFromTag tid ord Marker.none st
      = ([], Option.some (DBError.BadRequest "Request should include a valid marker"))
    ∧ (c.Entries ord Marker.any st).1
      = orderByPublished ord (st.entries.filter (fun e => e.userID == c.user.id)) :=
  ⟨rfl, rfl, rfl, rfl, rfl⟩

/-- The conflict-scan predicate of the source (`path`/`method` tested
with `==`) agrees pointwise with the spec's exact (Method, Path) match. -/
theorem conflictPred_eq (e x : Endpoint) :
    (x.path == e.path && x.method == e.method)
      = (decide (x.method = e.method) && decide (x.path = e.path)) := by
  by_cases h1 : x.path = e.path <;> by_cases h2 : x.method = e.method <;> simp [h1, h2]

/-- The source's linear conflict scan equals the spec's scan for an
exact (Method, Path) match. -/
theorem checkConflictingPaths_eq_spec (p : APIPlugin) (e : Endpoint) :
    p.checkConflictingPaths e
      = p.endpoints.any (fun x => decide (x.method = e.method) && decide (x.path = e.path)) := by
  unfold APIPlugin.checkConflictingPaths
  simp only [conflictPred_eq]

/-- C5 (confirmed): `RegisterEndpoint` applies its validations in the
fixed order handler-present, method-non-empty, path-non-empty,
(Method, Path)-conflict, and the error it returns is exactly that of the
first violated check (in particular an endpoint violating several checks
at once gets the missing-handler error); no violation yields no error. -/
theorem C5_validation_order (p : APIPlugin) (e : Endpoint) :
    (p.RegisterEndpoint e).2 = Option.map (validationError e) (specFirstViolation p e) := by
  unfold APIPlugin.RegisterEndpoint specFirstViolation
  rw [checkConflictingPaths_eq_spec]
  split_ifs <;> rfl

/-- C6 (confirmed): for every registry state, an endpoint with a nil
handler, an empty method, or an empty path is rejected without mutating
the endpoint sequence, and each such scenario yields its field's
specific validation error (the handler check preceding the method check
preceding the path check). -/
theorem C6_specific_errors_atomic (p : APIPlugin) (e : Endpoint)
    (h : e.handler = Option.none ∨ e.method = "" ∨ e.path = "") :
    (p.RegisterEndpoint e).1 = p
    ∧ (e.handler = Option.none →
        (p.RegisterEndpoint e).2 = Option.some { ErrorMsg := "A handler is required." })
    ∧ (e.handler ≠ Option.none → e.method = "" →
        (p.RegisterEndpoint e).2 = Option.some { ErrorMsg := "A method is required." })
    ∧ (e.handler ≠ Option.none → e.method ≠ "" → e.path = "" →
        (p.RegisterEndpoint e).2 = Option.some { ErrorMsg := "A path is required." }) := by
  unfold APIPlugin.RegisterEndpoint
  rcases hh : e.handler with _ | hv
  · simp [Option.isNone]
  · rcases h with h | h | h
    · exact absurd hh (h ▸ fun hne => by simp at hne)
    · simp [Option.isNone, h]
    · by_cases hm : e.method = "" <;> simp [Option.isNone, hm, h]

/-- Concrete instance for C6: an endpoint with a present handler but an
empty method is rejected with the method-specific error and the registry
state is unchanged. -/
theorem C6_specific_errors_atomic_witness :
    ((NewAPIPlugin "ext").RegisterEndpoint
        { needsUser := false, path := "/x", method := "", group := ""
          handler := Option.some (fun _ _ _ => ()) }).1 = NewAPIPlugin "ext"
    ∧ ((NewAPIPlugin "ext").RegisterEndpoint
        { needsUser := false, path := "/x", method := "", group := ""
          handler := Option.some (fun _ _ _ => ()) }).2
      = Option.some { ErrorMsg := "A method is required." } := by
  have h := C6_specific_errors_atomic (NewAPIPlugin "ext")
    { needsUser := false, path := "/x", method := "", group := ""
      handler := Option.some (fun _ _ _ => ()) } (Or.inr (Or.inl rfl))
  exact ⟨h.1, h.2.2.1 (by simp) rfl⟩

/-- Inversion of a successful registration: the endpoint passed every
check and was appended. -/
theorem RegisterEndpoint_ok (p p' : APIPlugin) (e : Endpoint)
    (h : p.RegisterEndpoint e = (p', Option.none)) :
    e.handler.isNone = false ∧ e.method ≠ "" ∧ e.path ≠ ""
    ∧ p.checkConflictingPaths e = false
    ∧ p' = { p with endpoints := p.endpoints ++ [e] } := by
  unfold APIPlugin.RegisterEndpoint at h
  split_ifs at h with h1 h2 h3 h4
  · exact absurd (congrArg Prod.snd h) (by simp)
  · exact absurd (congrArg Prod.snd h) (by simp)
  · exact absurd (congrArg Prod.snd h) (by simp)
  · exact absurd (congrArg Prod.snd h) (by simp)
  · refine ⟨?_, h2, h3, ?_, ?_⟩
    · cases hx : e.handler with
      | none => exact absurd (by simp [hx]) h1
      | some _ => simp [hx]
    · simpa using h4
    · exact (congrArg Prod.fst h).symm

/-- A sample handler value (the registry never calls handlers; it only
tests their presence). -/
def sampleHandler : RequestHandler := fun _ _ _ => ()

/-- The first registered endpoint of the spec's concrete scenario. -/
def epX1 : Endpoint :=
  { needsUser := false, path := "/x", method := "GET", group := "", handler := Option.some sampleHandler }

/-- A second endpoint with the same (Method, Path) but a nil handler. -/
def epX2NoHandler : Endpoint :=
  { needsUser := false, path := "/x", method := "GET", group := "", handler := Option.none }

/-- C3 (claim as stated is refuted here): after successfully registering
a GET /x endpoint, a second registration with the identical (Method,
Path) but a nil handler is rejected with the missing-handler error, not
a conflict error — its message does not contain "already exists". -/
theorem C3_counterexample :
    (NewAPIPlugin "ext").RegisterEndpoint epX1
      = ({ name := "ext", endpoints := [epX1], path := "" }, Option.none)
    ∧ ({ name := "ext", endpoints := [epX1], path := "" } : APIPlugin).RegisterEndpoint epX2NoHandler
      = ({ name := "ext", endpoints := [epX1], path := "" },
         Option.some { ErrorMsg := "A handler is required." })
    ∧ ¬ strContains "A handler is required." "already exists" := by
  refine ⟨rfl, rfl, by decide⟩

/-- C3 (amended): after an endpoint has been successfully registered, a
second `RegisterEndpoint` call with an endpoint having the identical
(Method, Path) and a present handler returns the conflict error, whose
message contains "already exists" and names the path and the method, and
leaves the endpoint sequence unchanged (the state after the failed call
is exactly the state after the first registration). -/
theorem C3_amended (p p' : APIPlugin) (e₁ e₂ : Endpoint)
    (h₁ : p.RegisterEndpoint e₁ = (p', Option.none))
    (hh : e₂.handler.isSome = true)
    (hm : e₂.method = e₁.method) (hp : e₂.path = e₁.path) :
    p'.RegisterEndpoint e₂
      = (p', Option.some { ErrorMsg :=
          "The path " ++ e₂.path ++ "for method " ++ e₂.method ++ " already exists." })
    ∧ strContains ("The path " ++ e₂.path ++ "for method " ++ e₂.method ++ " already exists.")
        "already exists"
    ∧ strContains ("The path " ++ e₂.path ++ "for method " ++ e₂.method ++ " already exists.")
        e₂.path
    ∧ strContains ("The path " ++ e₂.path ++ "for method " ++ e₂.method ++ " already exists.")
        e₂.method
    ∧ p'.endpoints = p.endpoints ++ [e₁] := by
  obtain ⟨hH1, hM1, hP1, hC1, hp'⟩ := RegisterEndpoint_ok p p' e₁ h₁
  have hH2 : e₂.handler.isNone = false := by
    cases hx : e₂.handler <;> simp_all
  have hM2 : e₂.method ≠ "" := hm ▸ hM1
  have hP2 : e₂.path ≠ "" := hp ▸ hP1
  have hconf : p'.checkConflictingPaths e₂ = true := by
    subst hp'
    unfold APIPlugin.checkConflictingPaths
    simp [List.any_append, hp, hm]
  have hreg : p'.RegisterEndpoint e₂
      = (p', Option.some { ErrorMsg :=
          "The path " ++ e₂.path ++ "for method " ++ e₂.method ++ " already exists." }) := by
    unfold APIPlugin.RegisterEndpoint
    rw [hH2, hconf]
    simp [hM2, hP2]
  refine ⟨hreg, ?_, ?_, ?_, by rw [hp']⟩
  · have hsplit : "The path " ++ e₂.path ++ "for method " ++ e₂.method ++ " already exists."
        = ("The path " ++ e₂.path ++ "for method " ++ e₂.method ++ " ") ++ "already exists" ++ "." := by
      apply String.ext
      simp [data_append]
    rw [hsplit]
    exact strContains_of_parts _ _ _
  · have hsplit : "The path " ++ e₂.path ++ "for method " ++ e₂.method ++ " already exists."
        = "The path " ++ e₂.path ++ ("for method " ++ e₂.method ++ " already exists.") := by
      apply String.ext
      simp [data_append]
    rw [hsplit]
    exact strContains_of_parts _ _ _
  · have hsplit : "The path " ++ e₂.path ++ "for method " ++ e₂.method ++ " already exists."
        = ("The path " ++ e₂.path ++ "for method ") ++ e₂.method ++ " already exists." := by
      apply String.ext
      simp [data_append]
    rw [hsplit]
    exact strContains_of_parts _ _ _

/-- Concrete instance for C3 (the spec's scenario with a second, valid
handler): the duplicate GET /x registration fails with the conflict
message and the endpoint count stays at 1. -/
theorem C3_amended_witness :
    ({ name := "ext", endpoints := [epX1], path := "" } : APIPlugin).RegisterEndpoint epX1
      = ({ name := "ext", endpoints := [epX1], path := "" },
         Option.some { ErrorMsg := "The path /xfor method GET already exists." })
    ∧ ({ name := "ext", endpoints := [epX1], path := "" } : APIPlugin).endpoints
      = ([] : List Endpoint) ++ [epX1] := by
  have h := C3_amended (NewAPIPlugin "ext") { name := "ext", endpoints := [epX1], path := "" }
    epX1 epX1 rfl rfl rfl rfl
  exact ⟨h.1, h.2.2.2.2⟩

/-- C4 (claim as stated is refuted here): a one-element sequence whose
(Method, Path) pairs are trivially pairwise distinct, but whose endpoint
has a nil handler: the call fails and the endpoint count stays 0, not 1. -/
theorem C4_counterexample :
    (registerAll (NewAPIPlugin "ext") [epX2NoHandler]).2
      = [Option.some { ErrorMsg := "A handler is required." }]
    ∧ (registerAll (NewAPIPlugin "ext") [epX2NoHandler]).2
      ≠ [(Option.none : Option APIPluginError)]
    ∧ (registerAll (NewAPIPlugin "ext") [epX2NoHandler]).1.endpoints.length = 0 := by
  refine ⟨rfl, by decide, rfl⟩

/-- Registration of a sequence of individually valid endpoints with
pairwise-distinct (Method, Path), none of which conflicts with the
existing registry state, succeeds call by call and appends in order. -/
theorem registerAll_ok (es : List Endpoint) : ∀ (p : APIPlugin),
    (∀ e ∈ es, e.handler.isSome = true ∧ e.method ≠ "" ∧ e.path ≠ "") →
    es.Pairwise (fun a b => ¬(a.method = b.method ∧ a.path = b.path)) →
    (∀ e ∈ es, p.checkConflictingPaths e = false) →
    registerAll p es
      = ({ p with endpoints := p.endpoints ++ es },
         es.map (fun _ => (Option.none : Option APIPluginError))) := by
  induction es with
  | nil =>
    intro p _ _ _
    simp [registerAll]
  | cons e es ih =>
    intro p hvalid hdist hconf
    obtain ⟨hh, hm, hp⟩ := hvalid e (List.mem_cons_self e es)
    have hH : e.handler.isNone = false := by
      cases hx : e.handler <;> simp_all
    have hstep : p.RegisterEndpoint e
        = ({ p with endpoints := p.endpoints ++ [e] }, Option.none) := by
      unfold APIPlugin.RegisterEndpoint
      rw [hH, hconf e (List.mem_cons_self e es)]
      simp [hm, hp]
    have hconf' : ∀ e' ∈ es,
        ({ p with endpoints := p.endpoints ++ [e] } : APIPlugin).checkConflictingPaths e' = false := by
      intro e' he'
      unfold APIPlugin.checkConflictingPaths
      have h1 : p.checkConflictingPaths e' = false := hconf e' (List.mem_cons_of_mem e he')
      have h2 : ¬(e.method = e'.method ∧ e.path = e'.path) :=
        (List.pairwise_cons.mp hdist).1 e' he'
      have h3 : (e.path == e'.path && e.method == e'.method) = false := by
        by_cases hpp : e.path = e'.path <;> by_cases hmm : e.method = e'.method <;>
          simp [hpp, hmm]
        exact h2 ⟨hmm, hpp⟩
      unfold APIPlugin.checkConflictingPaths at h1
      simp [List.any_append, h1, h3]
    have hrest := ih { p with endpoints := p.endpoints ++ [e] }
      (fun e' he' => hvalid e' (List.mem_cons_of_mem e he'))
      (List.pairwise_cons.mp hdist).2 hconf'
    simp only [registerAll, hstep, hrest]
    simp [List.append_assoc]

/-- C4 (amended): for every sequence of `RegisterEndpoint` calls on one
fresh extension whose endpoints all carry a handler and non-empty method
and path, and whose (Method, Path) pairs are pairwise distinct, every
call succeeds and the final endpoint sequence is exactly the endpoints
in call order (so its length equals the number of calls). -/
theorem C4_amended (nm : String) (es : List Endpoint)
    (hvalid : ∀ e ∈ es, e.handler.isSome = true ∧ e.method ≠ "" ∧ e.path ≠ "")
    (hdist : es.Pairwise (fun a b => ¬(a.method = b.method ∧ a.path = b.path))) :
    registerAll (NewAPIPlugin nm) es
      = ({ name := nm, endpoints := es, path := "" },
         es.map (fun _ => (Option.none : Option APIPluginError))) := by
  have h := registerAll_ok es (NewAPIPlugin nm) hvalid hdist
    (fun e _ => by simp [NewAPIPlugin, APIPlugin.checkConflictingPaths])
  simpa [NewAPIPlugin] using h

/-- Concrete instance for C4: registering GET /x then GET /y on a fresh
extension succeeds twice and stores both endpoints in call order. -/
theorem C4_amended_witness :
    registerAll (NewAPIPlugin "ext")
        [epX1, { needsUser := false, path := "/y", method := "GET", group := ""
                 handler := Option.some sampleHandler }]
      = ({ name := "ext"
           endpoints := [epX1, { needsUser := false, path := "/y", method := "GET", group := ""
                                 handler := Option.some sampleHandler }]
           path := "" },
         [Option.none, Option.none]) := by
  have h := C4_amended "ext"
    [epX1, { needsUser := false, path := "/y", method := "GET", group := ""
             handler := Option.some sampleHandler }]
    (by
      intro e he
      simp only [List.mem_cons, List.mem_singleton] at he
      rcases he with he | he | he
      · subst he; exact ⟨rfl, by simp [epX1], by simp [epX1]⟩
      · subst he; exact ⟨rfl, by simp, by simp⟩
      · cases he)
    (by
      constructor
      · intro b hb
        simp only [List.mem_singleton] at hb
        subst hb
        intro hc
        exact absurd hc.2 (by simp [epX1])
      · simp)
  exact h

/-- The loader accumulates exactly the payloads of the successful
descriptors, in order, after whatever the registry already held. -/
theorem loadPlugins_spec (mods : List ModuleDescriptor) : ∀ (s : Plugins),
    (Plugins.loadPlugins s mods).apiPlugins = s.apiPlugins ++ mods.filterMap modulePayload := by
  induction mods with
  | nil =>
    intro s
    simp [Plugins.loadPlugins]
  | cons d rest ih =>
    intro s
    rcases d with ⟨path, opened⟩
    rcases opened with _ | ⟨sym⟩
    · simpa [Plugins.loadPlugins, modulePayload] using ih s
    · rcases sym with _ | sym
      · simpa [Plugins.loadPlugins, modulePayload] using ih s
      · rcases sym with ⟨ret, err⟩ | _
        · rcases err with _ | msg
          · rcases ret with ⟨p⟩ | ⟨pth, nm⟩
            · simp [Plugins.loadPlugins, modulePayload, ih]
            · simpa [Plugins.loadPlugins, modulePayload] using ih s
          · simpa [Plugins.loadPlugins, modulePayload] using ih s
        · simpa [Plugins.loadPlugins, modulePayload] using ih s

/-- Success and failure counts of a descriptor list partition its
length. -/
theorem modulePayload_length (mods : List ModuleDescriptor) :
    (mods.filterMap modulePayload).length
      + (mods.filter (fun d => !moduleSucceeds d)).length = mods.length := by
  induction mods with
  | nil => simp
  | cons d rest ih =>
    cases hp : modulePayload d with
    | none =>
      have hc : (!moduleSucceeds d) = true := by simp [moduleSucceeds, hp]
      have h1 : List.filterMap modulePayload (d :: rest) = List.filterMap modulePayload rest := by
        simp [List.filterMap_cons, hp]
      have h2 : List.filter (fun x => !moduleSucceeds x) (d :: rest)
          = d :: List.filter (fun x => !moduleSucceeds x) rest := by
        rw [List.filter_cons]
        simp only [hc, if_true]
      rw [h1, h2, List.length_cons, List.length_cons]
      omega
    | some p =>
      have hc : (!moduleSucceeds d) = false := by simp [moduleSucceeds, hp]
      have h1 : List.filterMap modulePayload (d :: rest)
          = p :: List.filterMap modulePayload rest := by
        simp [List.filterMap_cons, hp]
      have h2 : List.filter (fun x => !moduleSucceeds x) (d :: rest)
          = List.filter (fun x => !moduleSucceeds x) rest := by
        rw [List.filter_cons]
        simp only [hc]
        simp
      rw [h1, h2, List.length_cons, List.length_cons]
      omega

/-- C2 (confirmed): given N module descriptors of which exactly K fail
at some loader stage (open, symbol resolution, type assertion, init
call, or plugin classification), the host registry holds the payloads of
the successful descriptors, in their relative order — hence exactly
N − K API extensions; no descriptor's failure prevents later descriptors
from being loaded. -/
theorem C2_loader (mods : List ModuleDescriptor) :
    (NewPlugins mods).APIPlugins = mods.filterMap modulePayload
    ∧ (NewPlugins mods).APIPlugins.length
      = mods.length - (mods.filter (fun d => !moduleSucceeds d)).length := by
  have h : (NewPlugins mods).APIPlugins = mods.filterMap modulePayload := by
    unfold NewPlugins Plugins.APIPlugins
    simpa using loadPlugins_spec mods { apiPlugins := [] }
  refine ⟨h, ?_⟩
  rw [h]
  have := modulePayload_length mods
  omega

end Syndication
